import Mathlib

set_option maxRecDepth 8192

/-!
Shallow embedding of the core gameplay logic of `src/Space Invaders/main.c`
(a single-file C Space Invaders clone).

Float values are modelled as exact rationals (`ℚ`); C `int` values as `ℤ`;
C truncating float→int casts as `truncQ`.  The fixed-capacity global pointer
arrays `enemies[55]`, `bullets[20]`, `particles[20]` are modelled as lists of
`Option` slots (`none` = `NULL`).  The global mutable state (player, pools,
`enemyDir`, `currentWave`, `ENEMY_SPEED_MULT`, `gameOver`) is gathered in one
`GameState` record that the per-frame functions transform.
-/

/-- Window and entity size constants from the `#define`s / `const` globals. -/
def WINDOW_WIDTH : ℤ := 640

def WINDOW_HEIGHT : ℤ := 480

def MAX_ENEMIES : ℕ := 55

def MAX_PROJECTILES : ℕ := 20

def MAX_PARTICLES : ℕ := 20

def PLAYER_SPEED : ℤ := 200

def ENEMY_SPEED : ℤ := 20

def BULLET_SPEED : ℤ := 275

def PLAYER_WIDTH : ℤ := 20

def PLAYER_HEIGHT : ℤ := 20

def ENEMY_WIDTH : ℤ := 30

def ENEMY_HEIGHT : ℤ := 30

def BULLET_WIDTH : ℤ := 10

def BULLET_HEIGHT : ℤ := 15

/-- C truncating cast from `float` to `int` (rounds toward zero). -/
def truncQ (q : ℚ) : ℤ := if 0 ≤ q then ⌊q⌋ else -⌊-q⌋

/-- `struct Enemy`. -/
structure Enemy where
  px : ℚ
  py : ℚ
  killReward : ℤ
  shootTimer : ℚ
deriving DecidableEq

/-- `struct Player`. -/
structure Player where
  px : ℚ
  py : ℚ
  score : ℤ
  hiScore : ℤ
  livesLeft : ℤ
  shootTimer : ℚ
deriving DecidableEq

/-- `struct Bullet`; `vy` is the direction sign (−1 player bullet, +1 enemy bullet). -/
structure Bullet where
  px : ℚ
  py : ℚ
  vy : ℤ
deriving DecidableEq

/-- `enum ParticleTypes`. -/
inductive ParticleTypes where
  | BULLET_EXPLOSION
  | SHIP_EXPLOSION
deriving DecidableEq

/-- `struct Particle`. -/
structure Particle where
  px : ℚ
  py : ℚ
  lifetime : ℚ
  particleType : ParticleTypes
deriving DecidableEq

/-- The global mutable program state used by the frame-update functions. -/
structure GameState where
  player : Player
  enemies : List (Option Enemy)
  bullets : List (Option Bullet)
  particles : List (Option Particle)
  enemyDir : ℤ
  currentWave : ℤ
  speedMult : ℚ
  gameOver : Bool
deriving DecidableEq

/-- First-free-slot installation shared by `createBullet` and `createParticle`:
walk the pool in index order, put the entity in the first `NULL` slot, leave
the pool unchanged ("silently drop") when every slot is occupied. -/
def installFirst {α : Type} : List (Option α) → α → List (Option α)
  | [], _ => []
  | none :: rest, a => some a :: rest
  | some b :: rest, a => some b :: installFirst rest a

/-- `createPlayer`: fresh player at the spawn point.  Note
`WINDOW_HEIGHT - (WINDOW_HEIGHT / 14)` is C integer arithmetic:
`480 - 34 = 446`. -/
def createPlayer : Player :=
  { px := ((WINDOW_WIDTH / 2 : ℤ) : ℚ)
  , py := ((WINDOW_HEIGHT - WINDOW_HEIGHT / 14 : ℤ) : ℚ)
  , score := 0
  , hiScore := 0
  , livesLeft := 3
  , shootTimer := 0 }

/-- `createEnemies`: fill all 55 slots with the wave grid.  Slot `i` holds the
enemy of column `i % 11` and row `i / 11`; float literals `0.20f` and `0.05f`
are the exact rationals `1/5` and `1/20`. -/
def createEnemies (currentWave : ℤ) : List (Option Enemy) :=
  (List.range MAX_ENEMIES).map (fun i =>
    some
      { px := ((i % 11 : ℕ) : ℚ) * (ENEMY_WIDTH : ℚ) + 10 * ((i % 11 : ℕ) : ℚ) + 100
      , py := ((i / 11 : ℕ) : ℚ) * (ENEMY_HEIGHT : ℚ) + 10 * ((i / 11 : ℕ) : ℚ) + 100
      , killReward := 10 * currentWave
      , shootTimer := max (1 / 5) (1 - 1 / 20 * (currentWave : ℚ)) })

/-- The bullet `createBullet(px, py, dir)` builds before installing it:
direction −1 offsets by half the player size, +1 by half the enemy size. -/
def newBullet (px py dir : ℤ) : Bullet :=
  let w_offset : ℤ := if dir = -1 then PLAYER_WIDTH / 2 else if dir = 1 then ENEMY_WIDTH / 2 else 0
  let h_offset : ℤ := if dir = -1 then PLAYER_HEIGHT / 2 else if dir = 1 then ENEMY_HEIGHT / 2 else 0
  { px := ((px + w_offset : ℤ) : ℚ), py := ((py + h_offset : ℤ) : ℚ), vy := dir }

/-- `createBullet`: install the new bullet in the first free pool slot. -/
def createBullet (pool : List (Option Bullet)) (px py dir : ℤ) : List (Option Bullet) :=
  installFirst pool (newBullet px py dir)

/-- `createParticle`: install the given particle in the first free pool slot. -/
def createParticle (pool : List (Option Particle)) (particle : Particle) :
    List (Option Particle) :=
  installFirst pool particle

/-- `updatePlayer`: horizontal movement from held keys (right first, then
left), then the shoot branch, then the unconditional cooldown decrement.
Returns the updated player together with the bullet pool (a shot installs a
direction −1 bullet at the truncated player position). -/
def updatePlayer (p : Player) (bullets : List (Option Bullet))
    (rightHeld leftHeld shootHeld : Bool) (delta : ℚ) : Player × List (Option Bullet) :=
  let px1 := if rightHeld then p.px + (PLAYER_SPEED : ℚ) * delta else p.px
  let px2 := if leftHeld then px1 - (PLAYER_SPEED : ℚ) * delta else px1
  if shootHeld ∧ p.shootTimer ≤ 0 then
    ({ p with px := px2, shootTimer := 1 - delta },
      createBullet bullets (truncQ px2) (truncQ p.py) (-1))
  else
    ({ p with px := px2, shootTimer := p.shootTimer - delta }, bullets)

/-- First loop of `updateEnemies`: horizontal group movement
(`px ± ENEMY_SPEED * ENEMY_SPEED_MULT * delta`, direction +1 means right). -/
def moveEnemies (delta : ℚ) (dir : ℤ) (mult : ℚ) (enemies : List (Option Enemy)) :
    List (Option Enemy) :=
  enemies.map (Option.map (fun e =>
    if dir = 1 then { e with px := e.px + (ENEMY_SPEED : ℚ) * mult * delta }
    else { e with px := e.px - (ENEMY_SPEED : ℚ) * mult * delta }))

/-- `updateEnemies`: move every live enemy, set the game-over flag when one is
too low, then scan for the first enemy beyond either horizontal edge; when one
is found, flip the direction, move every live enemy down by
`ENEMY_HEIGHT / 4` (unsigned integer division: `30 / 4 = 7`) and bump the
speed multiplier by `0.025 = 1/40` — once per frame (the C loop breaks). -/
def updateEnemies (delta : ℚ) (s : GameState) : GameState :=
  let moved := moveEnemies delta s.enemyDir s.speedMult s.enemies
  let go := s.gameOver || moved.any (fun o =>
    match o with
    | some e => decide (((WINDOW_HEIGHT - PLAYER_HEIGHT * 2 - ENEMY_HEIGHT : ℤ) : ℚ) < e.py)
    | none => false)
  match (List.range MAX_ENEMIES).find? (fun i =>
      match moved.getD i none with
      | some e => decide (e.px < (ENEMY_WIDTH : ℚ) ∨ ((WINDOW_WIDTH - 2 * ENEMY_WIDTH : ℤ) : ℚ) < e.px)
      | none => false) with
  | some _ =>
      { s with
        enemies := moved.map (Option.map (fun e => { e with py := e.py + ((ENEMY_HEIGHT / 4 : ℤ) : ℚ) }))
        enemyDir := -s.enemyDir
        speedMult := s.speedMult + 1 / 40
        gameOver := go }
  | none => { s with enemies := moved, gameOver := go }

/-- Loop state of `enemyShoot`: the enemy and bullet pools, the 11-entry
`found` marker array, and the stream of values the C `rand()` calls return. -/
structure ShootState where
  enemies : List (Option Enemy)
  bullets : List (Option Bullet)
  found : List Bool
  rng : List ℕ
deriving DecidableEq

/-- One inner-loop iteration of `enemyShoot`.  Iteration `t` (0-based over the
5×11 nested loops) visits slot `index = 54 − t` with scan position
`j = t % 11`; a live enemy at an unvisited scan position marks it visited,
consumes one `rand()` value, possibly fires (value `% 5000 < 10` and cooldown
≤ 0: install a +1 bullet and set the cooldown to 1), and then has its cooldown
decremented by `delta`. -/
def enemyShootStep (delta : ℚ) (st : ShootState) (t : ℕ) : ShootState :=
  let index := 54 - t
  let j := t % 11
  match st.enemies.getD index none with
  | none => st
  | some e =>
      if st.found.getD j false then st
      else
        let r := st.rng.headD 0
        if r % 5000 < 10 ∧ e.shootTimer ≤ 0 then
          { enemies := st.enemies.set index (some { e with shootTimer := 1 - delta })
          , bullets := createBullet st.bullets (truncQ e.px) (truncQ e.py) 1
          , found := st.found.set j true
          , rng := st.rng.tail }
        else
          { enemies := st.enemies.set index (some { e with shootTimer := e.shootTimer - delta })
          , bullets := st.bullets
          , found := st.found.set j true
          , rng := st.rng.tail }

/-- The first `n` iterations of the `enemyShoot` nested loops. -/
def shootFoldN (delta : ℚ) (init : ShootState) (n : ℕ) : ShootState :=
  (List.range n).foldl (enemyShootStep delta) init

/-- `enemyShoot`: run all 55 scan iterations starting from a fresh `found`
array; only the enemy and bullet pools of the final loop state persist. -/
def enemyShoot (delta : ℚ) (rng : List ℕ) (s : GameState) : GameState :=
  let st := shootFoldN delta
    { enemies := s.enemies, bullets := s.bullets
    , found := List.replicate 11 false, rng := rng } MAX_ENEMIES
  { s with enemies := st.enemies, bullets := st.bullets }

/-- `SDL_Rect`. -/
structure Rect where
  x : ℤ
  y : ℤ
  w : ℤ
  h : ℤ
deriving DecidableEq

/-- `SDL_HasIntersection`: false when either rect is empty, otherwise the two
closed-open extents must overlap strictly on both axes. -/
def hasIntersection (A B : Rect) : Bool :=
  if A.w ≤ 0 ∨ A.h ≤ 0 ∨ B.w ≤ 0 ∨ B.h ≤ 0 then false
  else decide (max A.x B.x < min (A.x + A.w) (B.x + B.w) ∧
               max A.y B.y < min (A.y + A.h) (B.y + B.h))

/-- The player rect built at the top of `checkBulletCollisions`. -/
def playerRect (p : Player) : Rect :=
  { x := truncQ p.px, y := truncQ p.py, w := PLAYER_WIDTH, h := PLAYER_HEIGHT }

/-- The bullet rect built once per live bullet. -/
def bulletRect (b : Bullet) : Rect :=
  { x := truncQ b.px, y := truncQ b.py, w := BULLET_WIDTH, h := BULLET_HEIGHT }

/-- The enemy rect built per enemy inside the collision loop. -/
def enemyRect (e : Enemy) : Rect :=
  { x := truncQ e.px, y := truncQ e.py, w := ENEMY_WIDTH, h := ENEMY_HEIGHT }

/-- Inner enemy loop body of `checkBulletCollisions` for bullet slot `i`
(whose rect `bRect` was captured before the loop): a live enemy hit by a
still-live bullet whose direction is not +1 yields score, spawns a
ship-explosion particle at the truncated enemy rect corner, and frees both
the enemy and the bullet. -/
def enemyHitStep (bRect : Rect) (i : ℕ) (s : GameState) (j : ℕ) : GameState :=
  match s.enemies.getD j none with
  | none => s
  | some e =>
      match s.bullets.getD i none with
      | none => s
      | some b =>
          let eRect := enemyRect e
          if hasIntersection bRect eRect = true ∧ b.vy ≠ 1 then
            { s with
              player := { s.player with score := s.player.score + e.killReward }
              particles := createParticle s.particles
                { px := (eRect.x : ℚ), py := (eRect.y : ℚ), lifetime := 1 / 2
                , particleType := ParticleTypes.SHIP_EXPLOSION }
              enemies := s.enemies.set j none
              bullets := s.bullets.set i none }
          else s

/-- Outer loop body of `checkBulletCollisions` for bullet slot `i`: test the
bullet against every enemy slot in order, then — if the bullet survived —
against the player rect (captured at function entry).  A player hit spawns a
ship-explosion particle at the bullet's float position, frees the bullet,
decrements the lives, sets the game-over flag when the remaining lives are
≤ 0, and resets the player position to the spawn point. -/
def processBulletSlot (pRect : Rect) (s : GameState) (i : ℕ) : GameState :=
  match s.bullets.getD i none with
  | none => s
  | some b =>
      let bRect := bulletRect b
      let s1 := (List.range MAX_ENEMIES).foldl (enemyHitStep bRect i) s
      match s1.bullets.getD i none with
      | none => s1
      | some b2 =>
          if hasIntersection bRect pRect = true ∧ b2.vy ≠ -1 then
            { s1 with
              particles := createParticle s1.particles
                { px := b2.px, py := b2.py, lifetime := 1 / 2
                , particleType := ParticleTypes.SHIP_EXPLOSION }
              bullets := s1.bullets.set i none
              player := { s1.player with
                livesLeft := s1.player.livesLeft - 1
                px := ((WINDOW_WIDTH / 2 : ℤ) : ℚ)
                py := ((WINDOW_HEIGHT - WINDOW_HEIGHT / 14 : ℤ) : ℚ) }
              gameOver := s1.gameOver || decide (s1.player.livesLeft - 1 ≤ 0) }
          else s1

/-- `checkBulletCollisions`: the player rect is computed once, then every
bullet slot is processed in index order. -/
def checkBulletCollisions (s : GameState) : GameState :=
  let pRect := playerRect s.player
  (List.range MAX_PROJECTILES).foldl (processBulletSlot pRect) s

/-- Game-over branch of `checkGameState`: keep the larger of score and high
score, rebuild the player, repopulate the enemy pool at the unchanged wave,
clear the bullet pool and drop the flag. -/
def gameOverCheck (s : GameState) : GameState :=
  if s.gameOver then
    let tempScore := if s.player.score > s.player.hiScore then s.player.score else s.player.hiScore
    { s with
      player := { createPlayer with hiScore := tempScore }
      enemies := createEnemies s.currentWave
      bullets := List.replicate MAX_PROJECTILES none
      gameOver := false }
  else s

/-- Wave-clear branch of `checkGameState`: when every enemy slot is `NULL`,
advance the wave, repopulate the pool at the new wave and reset the lives. -/
def waveClearCheck (s : GameState) : GameState :=
  if s.enemies.all Option.isNone then
    { s with
      currentWave := s.currentWave + 1
      enemies := createEnemies (s.currentWave + 1)
      player := { s.player with livesLeft := 3 } }
  else s

/-- `checkGameState`: the game-over branch runs first, the wave-clear branch
second, reading the pool the game-over branch may just have repopulated. -/
def checkGameState (s : GameState) : GameState :=
  waveClearCheck (gameOverCheck s)

/-- An empty-pools base state used by concrete witness computations. -/
def baseState : GameState :=
  { player := createPlayer
  , enemies := List.replicate MAX_ENEMIES none
  , bullets := List.replicate MAX_PROJECTILES none
  , particles := List.replicate MAX_PARTICLES none
  , enemyDir := 1
  , currentWave := 1
  , speedMult := 1
  , gameOver := false }

/-- Concrete state with a single live enemy hugging the left edge (x = 29),
used by concrete edge-reaction computations. -/
def edgeState : GameState :=
  { baseState with
    enemies := (List.replicate 55 (none : Option Enemy)).set 0
      (some { px := 29, py := 100, killReward := 10, shootTimer := 1 }) }

/-- Concrete state with a player bullet in slot 0 and an enemy bullet in
slot 1, used by concrete collision computations. -/
def shotState : GameState :=
  { baseState with
    bullets := ((List.replicate 20 (none : Option Bullet)).set 0
      (some { px := 320, py := 100, vy := -1 })).set 1
      (some { px := 320, py := 446, vy := 1 }) }

/-- Concrete state with one life left and an enemy bullet overlapping the
player, used by concrete player-hit computations. -/
def hitState : GameState :=
  { baseState with
    player := { createPlayer with livesLeft := 1 }
    bullets := (List.replicate 20 (none : Option Bullet)).set 0
      (some { px := 320, py := 446, vy := 1 }) }

/-- Concrete state with live enemies in slots 0 and 11 (the same scan
position, 11 apart), used by concrete enemy-shoot computations. -/
def colState : GameState :=
  { baseState with
    enemies := ((List.replicate 55 (none : Option Enemy)).set 0
      (some { px := 100, py := 100, killReward := 10, shootTimer := 1 })).set 11
      (some { px := 100, py := 140, killReward := 10, shootTimer := 1 }) }

/-- Concrete state whose only bullet is the player's (direction −1). -/
def upState : GameState :=
  { baseState with
    bullets := (List.replicate 20 (none : Option Bullet)).set 0
      (some { px := 320, py := 100, vy := -1 }) }

/-- Concrete state whose only bullet is an enemy's (direction +1), away from
the player. -/
def downState : GameState :=
  { baseState with
    enemies := (List.replicate 55 (none : Option Enemy)).set 0
      (some { px := 100, py := 100, killReward := 10, shootTimer := 1 })
    bullets := (List.replicate 20 (none : Option Bullet)).set 0
      (some { px := 100, py := 200, vy := 1 }) }

/-! ## Pool and list helper lemmas -/

theorem getD_set_ne {α : Type} (l : List α) (i j : ℕ) (a d : α) (h : i ≠ j) :
    (l.set i a).getD j d = l.getD j d := by
  simp [List.getD_eq_getElem?_getD, List.getElem?_set_ne h]

theorem getD_set_self {α : Type} (l : List α) (i : ℕ) (a d : α) (h : i < l.length) :
    (l.set i a).getD i d = a := by
  simp [List.getD_eq_getElem?_getD, List.getElem?_set_self, h]

theorem getD_map_option {α β : Type} (l : List (Option α)) (f : α → β) (i : ℕ) :
    (l.map (Option.map f)).getD i none = (l.getD i none).map f := by
  simp only [List.getD_eq_getElem?_getD, List.getElem?_map]
  cases h : l[i]? <;> simp

theorem installFirst_length {α : Type} (l : List (Option α)) (a : α) :
    (installFirst l a).length = l.length := by
  induction l with
  | nil => rfl
  | cons x xs ih => cases x <;> simp [installFirst, ih]

theorem installFirst_full {α : Type} (l : List (Option α)) (a : α)
    (h : ∀ o ∈ l, o.isSome) : installFirst l a = l := by
  induction l with
  | nil => rfl
  | cons x xs ih =>
    cases x with
    | none => exact absurd (h none (by simp)) (by simp)
    | some b => simp [installFirst, ih (fun o ho => h o (by simp [ho]))]

theorem installFirst_eq_set {α : Type} (l : List (Option α)) (a : α)
    (h : ∃ o ∈ l, o = none) :
    installFirst l a = l.set (l.findIdx Option.isNone) (some a) := by
  induction l with
  | nil => simp at h
  | cons x xs ih =>
    cases x with
    | none => simp [installFirst, List.findIdx_cons]
    | some b =>
      have hx : ∃ o ∈ xs, o = none := by
        obtain ⟨o, ho, rfl⟩ := h
        rcases List.mem_cons.mp ho with h1 | h2
        · exact absurd h1 (by simp)
        · exact ⟨none, h2, rfl⟩
      simp [installFirst, List.findIdx_cons, ih hx]

theorem installFirst_countP {α : Type} (l : List (Option α)) (a : α)
    (h : ∃ o ∈ l, o = none) :
    (installFirst l a).countP (fun o => o.isSome) = l.countP (fun o => o.isSome) + 1 := by
  induction l with
  | nil => simp at h
  | cons x xs ih =>
    cases x with
    | none => simp [installFirst, List.countP_cons]
    | some b =>
      have hx : ∃ o ∈ xs, o = none := by
        obtain ⟨o, ho, rfl⟩ := h
        rcases List.mem_cons.mp ho with h1 | h2
        · exact absurd h1 (by simp)
        · exact ⟨none, h2, rfl⟩
      simp [installFirst, List.countP_cons, ih hx]

theorem createEnemies_length (w : ℤ) : (createEnemies w).length = 55 := by
  simp [createEnemies, MAX_ENEMIES]

theorem createEnemies_getD (w : ℤ) (i : ℕ) (hi : i < 55) :
    (createEnemies w).getD i none = some
      { px := ((i % 11 : ℕ) : ℚ) * (ENEMY_WIDTH : ℚ) + 10 * ((i % 11 : ℕ) : ℚ) + 100
      , py := ((i / 11 : ℕ) : ℚ) * (ENEMY_HEIGHT : ℚ) + 10 * ((i / 11 : ℕ) : ℚ) + 100
      , killReward := 10 * w
      , shootTimer := max (1 / 5) (1 - 1 / 20 * (w : ℚ)) } := by
  have hi' : i < MAX_ENEMIES := hi
  simp [createEnemies, List.getD_eq_getElem?_getD, List.getElem?_map,
    List.getElem?_range, hi']

theorem createEnemies_all_none_false (w : ℤ) :
    (createEnemies w).all Option.isNone = false := by
  refine List.all_eq_false.mpr ?_
  have h0 : (0 : ℕ) ∈ List.range MAX_ENEMIES := by simp [MAX_ENEMIES]
  exact ⟨_, List.mem_map.mpr ⟨0, h0, rfl⟩, by simp⟩

/-! ## Claim theorems: wave spawning and game-state transitions -/

/-- C5: for every wave number w ≥ 1, `createEnemies` populates exactly 55
enemy slots in row-major grid order, enemy `i` sitting at
`(col*(ENEMY_WIDTH+10)+100, row*(ENEMY_HEIGHT+10)+100)` with `col = i % 11`
and `row = i / 11` — so enemy 0 is at (100,100), enemy 10 at (500,100) and
enemy 11 at (100,140) — each with kill reward `10*w` and shoot cooldown
`max(0.20, 1 − 0.05*w)`. -/
theorem createEnemies_grid (w : ℤ) (hw : 1 ≤ w) :
    (createEnemies w).length = 55 ∧
    (∀ i : ℕ, i < 55 →
      (createEnemies w).getD i none = some
        { px := ((i % 11 : ℕ) : ℚ) * ((ENEMY_WIDTH : ℚ) + 10) + 100
        , py := ((i / 11 : ℕ) : ℚ) * ((ENEMY_HEIGHT : ℚ) + 10) + 100
        , killReward := 10 * w
        , shootTimer := max (1 / 5) (1 - 1 / 20 * (w : ℚ)) }) ∧
    (createEnemies w).getD 0 none = some
      { px := 100, py := 100, killReward := 10 * w
      , shootTimer := max (1 / 5) (1 - 1 / 20 * (w : ℚ)) } ∧
    (createEnemies w).getD 10 none = some
      { px := 500, py := 100, killReward := 10 * w
      , shootTimer := max (1 / 5) (1 - 1 / 20 * (w : ℚ)) } ∧
    (createEnemies w).getD 11 none = some
      { px := 100, py := 140, killReward := 10 * w
      , shootTimer := max (1 / 5) (1 - 1 / 20 * (w : ℚ)) } := by
  refine ⟨createEnemies_length w, ?_, ?_, ?_, ?_⟩
  · intro i hi
    rw [createEnemies_getD w i hi]
    rw [show ((i % 11 : ℕ) : ℚ) * (ENEMY_WIDTH : ℚ) + 10 * ((i % 11 : ℕ) : ℚ) + 100
        = ((i % 11 : ℕ) : ℚ) * ((ENEMY_WIDTH : ℚ) + 10) + 100 from by ring,
      show ((i / 11 : ℕ) : ℚ) * (ENEMY_HEIGHT : ℚ) + 10 * ((i / 11 : ℕ) : ℚ) + 100
        = ((i / 11 : ℕ) : ℚ) * ((ENEMY_HEIGHT : ℚ) + 10) + 100 from by ring]
  · rw [createEnemies_getD w 0 (by norm_num)]
    norm_num [ENEMY_WIDTH, ENEMY_HEIGHT]
  · rw [createEnemies_getD w 10 (by norm_num)]
    norm_num [ENEMY_WIDTH, ENEMY_HEIGHT]
  · rw [createEnemies_getD w 11 (by norm_num)]
    norm_num [ENEMY_WIDTH, ENEMY_HEIGHT]

/-- Witness for C5 at wave 1: enemy 11 opens row 1 at (100,140). -/
theorem createEnemies_grid_witness :
    (1 : ℤ) ≤ 1 ∧
    (createEnemies 1).getD 11 none = some
      { px := 100, py := 140, killReward := 10 * 1
      , shootTimer := max (1 / 5) (1 - 1 / 20 * ((1 : ℤ) : ℚ)) } :=
  ⟨le_refl 1, (createEnemies_grid 1 (le_refl 1)).2.2.2.2⟩

/-- C2: when the game-over flag is set, `checkGameState` stores
`max(high score, score)` as the new high score, resets the player (score 0,
lives 3, cooldown 0, spawn position), repopulates the enemy pool at the
unchanged wave number, clears the bullet pool and drops the flag. -/
theorem checkGameState_gameOver_reset (s : GameState) (h : s.gameOver = true) :
    (checkGameState s).player.hiScore = max s.player.hiScore s.player.score ∧
    (checkGameState s).player.score = 0 ∧
    (checkGameState s).player.livesLeft = 3 ∧
    (checkGameState s).player.shootTimer = 0 ∧
    (checkGameState s).player.px = createPlayer.px ∧
    (checkGameState s).player.py = createPlayer.py ∧
    (checkGameState s).currentWave = s.currentWave ∧
    (checkGameState s).enemies = createEnemies s.currentWave ∧
    (checkGameState s).bullets = List.replicate MAX_PROJECTILES none ∧
    (checkGameState s).gameOver = false := by
  have hmax : (if s.player.score > s.player.hiScore then s.player.score else s.player.hiScore)
      = max s.player.hiScore s.player.score := by
    rcases le_or_lt s.player.score s.player.hiScore with h1 | h1
    · simp [max_def, h1, not_lt.mpr h1]
    · simp [max_def, h1, le_of_lt h1]
  have hgo : gameOverCheck s =
      { s with
        player := { createPlayer with hiScore := max s.player.hiScore s.player.score }
        enemies := createEnemies s.currentWave
        bullets := List.replicate MAX_PROJECTILES none
        gameOver := false } := by
    rw [gameOverCheck, if_pos h, hmax]
  unfold checkGameState
  rw [hgo, waveClearCheck]
  simp [createEnemies_all_none_false, createPlayer]

/-- Witness for C2: game over at score 150 with high score 200 on wave 3 —
the high score stays 200, the score resets, the wave stays 3. -/
theorem checkGameState_gameOver_reset_witness :
    (checkGameState { baseState with
        player := { createPlayer with score := 150, hiScore := 200 }
        currentWave := 3, gameOver := true }).player.hiScore = 200 ∧
    (checkGameState { baseState with
        player := { createPlayer with score := 150, hiScore := 200 }
        currentWave := 3, gameOver := true }).player.score = 0 ∧
    (checkGameState { baseState with
        player := { createPlayer with score := 150, hiScore := 200 }
        currentWave := 3, gameOver := true }).currentWave = 3 ∧
    (checkGameState { baseState with
        player := { createPlayer with score := 150, hiScore := 200 }
        currentWave := 3, gameOver := true }).gameOver = false := by
  have h := checkGameState_gameOver_reset { baseState with
    player := { createPlayer with score := 150, hiScore := 200 }
    currentWave := 3, gameOver := true } rfl
  refine ⟨?_, h.2.1, h.2.2.2.2.2.2.1, h.2.2.2.2.2.2.2.2.2⟩
  rw [h.1]
  norm_num

/-- C3: the wave-clear branch is a no-op while any enemy slot is occupied;
when every slot is empty it advances the wave by one, repopulates the pool at
the new wave and resets the lives to 3, leaving score and position alone. -/
theorem waveClearCheck_spec (s : GameState) :
    ((∃ o ∈ s.enemies, o.isSome) → waveClearCheck s = s) ∧
    ((∀ o ∈ s.enemies, o = none) →
      (waveClearCheck s).currentWave = s.currentWave + 1 ∧
      (waveClearCheck s).enemies = createEnemies (s.currentWave + 1) ∧
      (waveClearCheck s).player.livesLeft = 3 ∧
      (waveClearCheck s).player.score = s.player.score ∧
      (waveClearCheck s).player.px = s.player.px ∧
      (waveClearCheck s).player.py = s.player.py) := by
  constructor
  · rintro ⟨o, ho, hs⟩
    have hf : s.enemies.all Option.isNone = false :=
      List.all_eq_false.mpr ⟨o, ho, by cases o with | none => simp at hs | some e => simp⟩
    rw [waveClearCheck, hf]
    simp
  · intro hall
    have ht : s.enemies.all Option.isNone = true :=
      List.all_eq_true.mpr (fun o ho => by rw [hall o ho]; rfl)
    rw [waveClearCheck, ht]
    simp

/-- Witness for C3: a populated pool is untouched; the all-empty `baseState`
advances from wave 1 to wave 2. -/
theorem waveClearCheck_spec_witness :
    waveClearCheck { baseState with enemies := createEnemies 1 }
      = { baseState with enemies := createEnemies 1 } ∧
    (waveClearCheck baseState).currentWave = 2 := by
  constructor
  · refine (waveClearCheck_spec { baseState with enemies := createEnemies 1 }).1 ?_
    have h0 : (0 : ℕ) ∈ List.range MAX_ENEMIES := by simp [MAX_ENEMIES]
    exact ⟨_, List.mem_map.mpr ⟨0, h0, rfl⟩, rfl⟩
  · have h := (waveClearCheck_spec baseState).2
      (fun o ho => List.eq_of_mem_replicate ho)
    rw [h.1]
    norm_num [baseState]

/-- C7: `checkGameState` runs the game-over branch first and the wave-clear
branch second on the branch's output, so a game-over frame never also
increments the wave (the game-over reset has just repopulated the pool). -/
theorem checkGameState_branch_order (s : GameState) (h : s.gameOver = true) :
    checkGameState s = waveClearCheck (gameOverCheck s) ∧
    (checkGameState s).currentWave = s.currentWave ∧
    (checkGameState s).enemies = createEnemies s.currentWave := by
  have hgo : gameOverCheck s =
      { s with
        player := { createPlayer with
          hiScore := if s.player.score > s.player.hiScore then s.player.score else s.player.hiScore }
        enemies := createEnemies s.currentWave
        bullets := List.replicate MAX_PROJECTILES none
        gameOver := false } := by
    rw [gameOverCheck, if_pos h]
  refine ⟨rfl, ?_, ?_⟩
  · show (waveClearCheck (gameOverCheck s)).currentWave = s.currentWave
    rw [hgo, waveClearCheck]
    simp [createEnemies_all_none_false]
  · show (waveClearCheck (gameOverCheck s)).enemies = createEnemies s.currentWave
    rw [hgo, waveClearCheck]
    simp [createEnemies_all_none_false]

/-- Witness for C7: a game-over frame starting at wave 1 stays at wave 1. -/
theorem checkGameState_branch_order_witness :
    ({ baseState with gameOver := true } : GameState).gameOver = true ∧
    (checkGameState { baseState with gameOver := true }).currentWave = 1 := by
  refine ⟨rfl, ?_⟩
  rw [(checkGameState_branch_order { baseState with gameOver := true } rfl).2.1]
  simp [baseState]

theorem none_mem_set_none {α : Type} (l : List (Option α)) (i : ℕ) (h : i < l.length) :
    (none : Option α) ∈ l.set i none := by
  induction l generalizing i with
  | nil => simp at h
  | cons x xs ih =>
    cases i with
    | zero => simp
    | succ i2 =>
      have : i2 < xs.length := by simpa using h
      simp [ih i2 this]

/-- C8: every spawn call installs its entity in the first empty slot in index
order; a full pool makes the call a silent no-op; the bullet/particle/enemy
pools never hold more than 20/20/55 entities; and a slot just released is
available to the very next allocate call (the occupied count grows by one). -/
theorem pool_allocate_spec :
    (∀ (pool : List (Option Bullet)) (px py dir : ℤ), (∃ o ∈ pool, o = none) →
      createBullet pool px py dir
        = pool.set (pool.findIdx Option.isNone) (some (newBullet px py dir))) ∧
    (∀ (pool : List (Option Bullet)) (px py dir : ℤ), (∀ o ∈ pool, o.isSome) →
      createBullet pool px py dir = pool) ∧
    (∀ (pool : List (Option Particle)) (particle : Particle), (∃ o ∈ pool, o = none) →
      createParticle pool particle
        = pool.set (pool.findIdx Option.isNone) (some particle)) ∧
    (∀ (pool : List (Option Particle)) (particle : Particle), (∀ o ∈ pool, o.isSome) →
      createParticle pool particle = pool) ∧
    (∀ (pool : List (Option Bullet)) (px py dir : ℤ), pool.length = MAX_PROJECTILES →
      (createBullet pool px py dir).length = MAX_PROJECTILES ∧
      (createBullet pool px py dir).countP (fun o => o.isSome) ≤ MAX_PROJECTILES) ∧
    (∀ (pool : List (Option Particle)) (particle : Particle), pool.length = MAX_PARTICLES →
      (createParticle pool particle).length = MAX_PARTICLES ∧
      (createParticle pool particle).countP (fun o => o.isSome) ≤ MAX_PARTICLES) ∧
    (∀ w : ℤ, (createEnemies w).countP (fun o => o.isSome) ≤ MAX_ENEMIES) ∧
    (∀ (pool : List (Option Bullet)) (i : ℕ) (px py dir : ℤ), i < pool.length →
      (createBullet (pool.set i none) px py dir).countP (fun o => o.isSome)
        = (pool.set i none).countP (fun o => o.isSome) + 1) ∧
    (∀ (pool : List (Option Particle)) (i : ℕ) (particle : Particle), i < pool.length →
      (createParticle (pool.set i none) particle).countP (fun o => o.isSome)
        = (pool.set i none).countP (fun o => o.isSome) + 1) := by
  refine ⟨?_, ?_, ?_, ?_, ?_, ?_, ?_, ?_, ?_⟩
  · intro pool px py dir h
    exact installFirst_eq_set pool (newBullet px py dir) h
  · intro pool px py dir h
    exact installFirst_full pool (newBullet px py dir) h
  · intro pool particle h
    exact installFirst_eq_set pool particle h
  · intro pool particle h
    exact installFirst_full pool particle h
  · intro pool px py dir h
    have hlen : (createBullet pool px py dir).length = MAX_PROJECTILES := by
      rw [createBullet, installFirst_length, h]
    exact ⟨hlen, le_of_le_of_eq (List.countP_le_length _) hlen⟩
  · intro pool particle h
    have hlen : (createParticle pool particle).length = MAX_PARTICLES := by
      rw [createParticle, installFirst_length, h]
    exact ⟨hlen, le_of_le_of_eq (List.countP_le_length _) hlen⟩
  · intro w
    exact le_of_le_of_eq (List.countP_le_length _) (createEnemies_length w)
  · intro pool i px py dir h
    exact installFirst_countP _ _ ⟨none, none_mem_set_none pool i h, rfl⟩
  · intro pool i particle h
    exact installFirst_countP _ _ ⟨none, none_mem_set_none pool i h, rfl⟩

/-- Witness for C8 on small concrete pools: a partly-free pool installs in its
first empty slot, a full pool is untouched, and a freshly released slot makes
the next allocation succeed. -/
theorem pool_allocate_spec_witness :
    createBullet [some { px := 0, py := 0, vy := -1 }, none] 5 7 (-1)
      = [some { px := 0, py := 0, vy := -1 }, some (newBullet 5 7 (-1))] ∧
    createBullet [some { px := 0, py := 0, vy := -1 }] 5 7 (-1)
      = [some { px := 0, py := 0, vy := -1 }] ∧
    createParticle
      [some { px := 1, py := 2, lifetime := 1/2, particleType := ParticleTypes.BULLET_EXPLOSION }]
      { px := 3, py := 4, lifetime := 1/2, particleType := ParticleTypes.SHIP_EXPLOSION }
      = [some { px := 1, py := 2, lifetime := 1/2, particleType := ParticleTypes.BULLET_EXPLOSION }] ∧
    (createBullet
        ([some { px := 0, py := 0, vy := -1 }, some { px := 1, py := 1, vy := 1 }].set 1 none)
        5 7 (-1)).countP (fun o => o.isSome)
      = (([some { px := 0, py := 0, vy := -1 }, some { px := 1, py := 1, vy := 1 }] :
          List (Option Bullet)).set 1 none).countP (fun o => o.isSome) + 1 := by
  refine ⟨?_, ?_, ?_, ?_⟩
  · rw [pool_allocate_spec.1 _ 5 7 (-1) ⟨none, by simp, rfl⟩]
    rfl
  · exact pool_allocate_spec.2.1 _ 5 7 (-1) (by intro o ho; simp at ho; simp [ho])
  · exact pool_allocate_spec.2.2.2.1 _ _ (by intro o ho; simp at ho; simp [ho])
  · exact pool_allocate_spec.2.2.2.2.2.2.2.1 _ 1 5 7 (-1) (by norm_num)

/-! ## Claim theorems: player movement and enemy edge reaction -/

/-- C10: the player-move step never clamps the horizontal position — the new
x is exactly the old x plus `PLAYER_SPEED*delta` when right is held and minus
it when left is held, with no window-bound dependence, so holding move-right
drives the player arbitrarily far off-screen. -/
theorem updatePlayer_no_clamp :
    (∀ (p : Player) (bullets : List (Option Bullet)) (rightHeld leftHeld shootHeld : Bool)
        (delta : ℚ),
      (updatePlayer p bullets rightHeld leftHeld shootHeld delta).1.px
        = p.px + (if rightHeld then (PLAYER_SPEED : ℚ) * delta else 0)
            - (if leftHeld then (PLAYER_SPEED : ℚ) * delta else 0)) ∧
    (∀ (p : Player) (bullets : List (Option Bullet)) (delta : ℚ), 0 < delta → ∀ B : ℚ,
      ∃ n : ℕ, ((fun q : Player × List (Option Bullet) =>
        updatePlayer q.1 q.2 true false false delta)^[n] (p, bullets)).1.px > B) := by
  have hpx : ∀ (p : Player) (bullets : List (Option Bullet))
      (rightHeld leftHeld shootHeld : Bool) (delta : ℚ),
      (updatePlayer p bullets rightHeld leftHeld shootHeld delta).1.px
        = p.px + (if rightHeld then (PLAYER_SPEED : ℚ) * delta else 0)
            - (if leftHeld then (PLAYER_SPEED : ℚ) * delta else 0) := by
    intro p bullets rightHeld leftHeld shootHeld delta
    rw [updatePlayer]
    cases rightHeld <;> cases leftHeld <;> split_ifs <;> simp <;> ring
  refine ⟨hpx, ?_⟩
  intro p bullets delta hd B
  have hsd : 0 < (PLAYER_SPEED : ℚ) * delta := by
    have : (0 : ℚ) < (PLAYER_SPEED : ℚ) := by norm_num [PLAYER_SPEED]
    positivity
  have hiter : ∀ n : ℕ, ∀ q : Player × List (Option Bullet),
      ((fun q : Player × List (Option Bullet) =>
        updatePlayer q.1 q.2 true false false delta)^[n] q).1.px
        = q.1.px + n * ((PLAYER_SPEED : ℚ) * delta) := by
    intro n
    induction n with
    | zero => intro q; simp
    | succ m ih =>
      intro q
      rw [Function.iterate_succ_apply', hpx, ih q]
      push_cast
      norm_num
      ring
  obtain ⟨n, hn⟩ := exists_nat_gt ((B - p.px) / ((PLAYER_SPEED : ℚ) * delta))
  refine ⟨n, ?_⟩
  rw [hiter n (p, bullets)]
  have := (div_lt_iff hsd).mp hn
  linarith

/-- Witness for C10: with `delta = 1` some number of held-right frames pushes
the player's x beyond 1000000. -/
theorem updatePlayer_no_clamp_witness :
    (0 : ℚ) < 1 ∧
    ∃ n : ℕ, ((fun q : Player × List (Option Bullet) =>
      updatePlayer q.1 q.2 true false false 1)^[n]
        (createPlayer, List.replicate MAX_PROJECTILES none)).1.px > 1000000 :=
  ⟨by norm_num,
    updatePlayer_no_clamp.2 createPlayer (List.replicate MAX_PROJECTILES none) 1
      (by norm_num) 1000000⟩

/-- C4 (amended): when after the movement phase some live enemy's x is below
ENEMY_WIDTH (30) or above WINDOW_WIDTH − 2*ENEMY_WIDTH (580), the frame's
enemy update negates the group direction exactly once, adds
`ENEMY_HEIGHT / 4 = 7` (C unsigned integer division, not 7.5) to every live
enemy's y, preserves the empty slots, and adds 0.025 to the speed
multiplier. -/
theorem updateEnemies_edge_react (delta : ℚ) (s : GameState)
    (h : ∃ i, i < 55 ∧ ∃ e,
      (moveEnemies delta s.enemyDir s.speedMult s.enemies).getD i none = some e ∧
      (e.px < (ENEMY_WIDTH : ℚ) ∨ ((WINDOW_WIDTH - 2 * ENEMY_WIDTH : ℤ) : ℚ) < e.px)) :
    (updateEnemies delta s).enemyDir = -s.enemyDir ∧
    (updateEnemies delta s).speedMult = s.speedMult + 1 / 40 ∧
    (∀ k : ℕ, ∀ e, s.enemies.getD k none = some e →
      ∃ e2, (updateEnemies delta s).enemies.getD k none = some e2 ∧ e2.py = e.py + 7) ∧
    (∀ k : ℕ, s.enemies.getD k none = none →
      (updateEnemies delta s).enemies.getD k none = none) := by
  have hfind : ((List.range MAX_ENEMIES).find? (fun i =>
      match (moveEnemies delta s.enemyDir s.speedMult s.enemies).getD i none with
      | some e => decide (e.px < (ENEMY_WIDTH : ℚ) ∨ ((WINDOW_WIDTH - 2 * ENEMY_WIDTH : ℤ) : ℚ) < e.px)
      | none => false)).isSome := by
    rw [List.find?_isSome]
    obtain ⟨i, hi, e, hme, he⟩ := h
    refine ⟨i, ?_, ?_⟩
    · simp only [List.mem_range, MAX_ENEMIES]
      exact hi
    · rw [hme]
      simpa using he
  obtain ⟨j, hj⟩ := Option.isSome_iff_exists.mp hfind
  simp only [updateEnemies]
  rw [hj]
  refine ⟨rfl, rfl, ?_, ?_⟩
  · intro k e hk
    have h1 : (moveEnemies delta s.enemyDir s.speedMult s.enemies).getD k none
        = some (if s.enemyDir = 1 then { e with px := e.px + (ENEMY_SPEED : ℚ) * s.speedMult * delta }
                else { e with px := e.px - (ENEMY_SPEED : ℚ) * s.speedMult * delta }) := by
      rw [moveEnemies, getD_map_option, hk]
      rfl
    have hc : ((ENEMY_HEIGHT / 4 : ℤ) : ℚ) = 7 := by decide
    rw [getD_map_option, h1, Option.map_some']
    refine ⟨_, rfl, ?_⟩
    split_ifs <;> simp [hc]
  · intro k hk
    have h1 : (moveEnemies delta s.enemyDir s.speedMult s.enemies).getD k none = none := by
      rw [moveEnemies, getD_map_option, hk]
      rfl
    rw [getD_map_option, h1]
    rfl

/-- Witness for C4 (amended): an enemy at x = 29 (< 30) with `delta = 0`
flips the direction to −1, bumps the multiplier to 1.025 and moves the enemy
down to y = 107. -/
theorem updateEnemies_edge_react_witness :
    (updateEnemies 0 edgeState).enemyDir = -1 ∧
    (updateEnemies 0 edgeState).speedMult = 1 + 1 / 40 ∧
    (∃ e2, (updateEnemies 0 edgeState).enemies.getD 0 none = some e2 ∧ e2.py = 100 + 7) := by
  have hget : edgeState.enemies.getD 0 none
      = some { px := 29, py := 100, killReward := 10, shootTimer := 1 } := rfl
  have hmoved : (moveEnemies 0 edgeState.enemyDir edgeState.speedMult edgeState.enemies).getD 0 none
      = some { px := 29, py := 100, killReward := 10, shootTimer := 1 } := by
    rw [show edgeState.enemyDir = 1 from rfl, show edgeState.speedMult = 1 from rfl,
      moveEnemies, getD_map_option, hget, Option.map_some']
    norm_num [ENEMY_SPEED]
  have h := updateEnemies_edge_react 0 edgeState
    ⟨0, by norm_num, { px := 29, py := 100, killReward := 10, shootTimer := 1 },
      hmoved, Or.inl (by norm_num [ENEMY_WIDTH])⟩
  exact ⟨h.1, h.2.1,
    h.2.2.1 0 { px := 29, py := 100, killReward := 10, shootTimer := 1 } hget⟩

/-- Counterexample to C4 as stated: at the edge-reaction the enemy's y grows
from 100 to 107 (`ENEMY_HEIGHT / 4` is the C unsigned integer division
`30 / 4 = 7`), not to 107.5 as the claimed `ENEMY_HEIGHT/4 = 7.5` says. -/
theorem updateEnemies_edge_react_cex :
    (∃ e2, (updateEnemies 0 edgeState).enemies.getD 0 none = some e2 ∧ e2.py = 107) ∧
    (107 : ℚ) ≠ 100 + 15 / 2 := by
  have hget : edgeState.enemies.getD 0 none
      = some { px := 29, py := 100, killReward := 10, shootTimer := 1 } := rfl
  have hmoved : (moveEnemies 0 edgeState.enemyDir edgeState.speedMult edgeState.enemies).getD 0 none
      = some { px := 29, py := 100, killReward := 10, shootTimer := 1 } := by
    rw [show edgeState.enemyDir = 1 from rfl, show edgeState.speedMult = 1 from rfl,
      moveEnemies, getD_map_option, hget, Option.map_some']
    norm_num [ENEMY_SPEED]
  have hfind : ((List.range MAX_ENEMIES).find? (fun i =>
      match (moveEnemies 0 edgeState.enemyDir edgeState.speedMult edgeState.enemies).getD i none with
      | some e => decide (e.px < (ENEMY_WIDTH : ℚ) ∨ ((WINDOW_WIDTH - 2 * ENEMY_WIDTH : ℤ) : ℚ) < e.px)
      | none => false)).isSome := by
    rw [List.find?_isSome]
    refine ⟨0, by simp [MAX_ENEMIES], ?_⟩
    rw [hmoved]
    norm_num [ENEMY_WIDTH]
  obtain ⟨j, hj⟩ := Option.isSome_iff_exists.mp hfind
  refine ⟨?_, by norm_num⟩
  simp only [updateEnemies]
  rw [hj, getD_map_option, hmoved, Option.map_some']
  have hc : ((ENEMY_HEIGHT / 4 : ℤ) : ℚ) = 7 := by decide
  refine ⟨_, rfl, ?_⟩
  simp [hc]
  norm_num

/-! ## Collision-resolution lemmas -/

theorem enemyHitStep_player_fields (bRect : Rect) (i j : ℕ) (s : GameState) :
    (enemyHitStep bRect i s j).player.livesLeft = s.player.livesLeft ∧
    (enemyHitStep bRect i s j).player.px = s.player.px ∧
    (enemyHitStep bRect i s j).player.py = s.player.py ∧
    (enemyHitStep bRect i s j).gameOver = s.gameOver := by
  simp only [enemyHitStep]
  split
  · simp
  · split
    · simp
    · split_ifs <;> simp

theorem enemyFold_player_fields (bRect : Rect) (i : ℕ) (l : List ℕ) (s : GameState) :
    ((l.foldl (enemyHitStep bRect i) s).player.livesLeft = s.player.livesLeft ∧
     (l.foldl (enemyHitStep bRect i) s).player.px = s.player.px ∧
     (l.foldl (enemyHitStep bRect i) s).player.py = s.player.py ∧
     (l.foldl (enemyHitStep bRect i) s).gameOver = s.gameOver) := by
  induction l generalizing s with
  | nil => exact ⟨rfl, rfl, rfl, rfl⟩
  | cons a l ih =>
    simp only [List.foldl_cons]
    have h1 := enemyHitStep_player_fields bRect i a s
    have h2 := ih (enemyHitStep bRect i s a)
    exact ⟨h2.1.trans h1.1, h2.2.1.trans h1.2.1, h2.2.2.1.trans h1.2.2.1,
      h2.2.2.2.trans h1.2.2.2⟩

theorem enemyHitStep_bullet_slot (bRect : Rect) (i j : ℕ) (s : GameState) :
    (enemyHitStep bRect i s j).bullets.getD i none = s.bullets.getD i none ∨
    (enemyHitStep bRect i s j).bullets.getD i none = none := by
  simp only [enemyHitStep]
  split
  · exact Or.inl rfl
  · split
    · exact Or.inl rfl
    · split_ifs
      · right
        show (s.bullets.set i none).getD i none = none
        by_cases hi : i < s.bullets.length
        · exact getD_set_self _ _ _ _ hi
        · rw [List.getD_eq_default]
          rw [List.length_set]
          exact le_of_not_lt hi
      · exact Or.inl rfl

theorem enemyHitStep_keeps_none (bRect : Rect) (i j : ℕ) (s : GameState)
    (h : s.bullets.getD i none = none) :
    (enemyHitStep bRect i s j).bullets.getD i none = none := by
  simp only [enemyHitStep]
  split
  · exact h
  · split
    · exact h
    · next heq =>
      rw [h] at heq
      exact absurd heq (by simp)

theorem enemyFold_bullet_slot (bRect : Rect) (i : ℕ) (l : List ℕ) (s : GameState) :
    (l.foldl (enemyHitStep bRect i) s).bullets.getD i none = s.bullets.getD i none ∨
    (l.foldl (enemyHitStep bRect i) s).bullets.getD i none = none := by
  induction l generalizing s with
  | nil => exact Or.inl rfl
  | cons a l ih =>
    simp only [List.foldl_cons]
    rcases enemyHitStep_bullet_slot bRect i a s with h1 | h1
    · rcases ih (enemyHitStep bRect i s a) with h2 | h2
      · exact Or.inl (h2.trans h1)
      · exact Or.inr h2
    · rcases ih (enemyHitStep bRect i s a) with h2 | h2
      · exact Or.inr (h2.trans h1)
      · exact Or.inr h2

theorem enemyHitStep_id_of_vy_one (bRect : Rect) (i j : ℕ) (s : GameState) (b : Bullet)
    (hb : s.bullets.getD i none = some b) (hvy : b.vy = 1) :
    enemyHitStep bRect i s j = s := by
  simp only [enemyHitStep]
  split
  · rfl
  · split
    · rfl
    · next b0 heq =>
      rw [hb] at heq
      have hb0 : b0 = b := by
        injection heq with h1
        exact h1.symm
      rw [if_neg]
      rintro ⟨_, hne⟩
      exact hne (by rw [hb0, hvy])

theorem enemyFold_id_of_vy_one (bRect : Rect) (i : ℕ) (l : List ℕ) (s : GameState) (b : Bullet)
    (hb : s.bullets.getD i none = some b) (hvy : b.vy = 1) :
    l.foldl (enemyHitStep bRect i) s = s := by
  induction l with
  | nil => rfl
  | cons a l ih =>
    simp only [List.foldl_cons]
    rw [enemyHitStep_id_of_vy_one bRect i a s b hb hvy, ih]

/-- C6 (amended): a live direction +1 bullet overlapping the player rect
spawns a 0.5 s ship-destruction particle at the bullet's position, is
released, costs one life, sets the game-over flag exactly when the remaining
lives are ≤ 0, and resets the player to
`(WINDOW_WIDTH/2, WINDOW_HEIGHT − WINDOW_HEIGHT/14)` — which in the C integer
arithmetic is exactly (320, 446). -/
theorem player_hit_resolution (s : GameState) (i : ℕ) (b : Bullet)
    (hb : s.bullets.getD i none = some b) (hvy : b.vy = 1)
    (hint : hasIntersection (bulletRect b) (playerRect s.player) = true)
    (hgo : s.gameOver = false) :
    (processBulletSlot (playerRect s.player) s i).particles
      = createParticle s.particles
        { px := b.px, py := b.py, lifetime := 1 / 2
        , particleType := ParticleTypes.SHIP_EXPLOSION } ∧
    (processBulletSlot (playerRect s.player) s i).bullets = s.bullets.set i none ∧
    (processBulletSlot (playerRect s.player) s i).player.livesLeft
      = s.player.livesLeft - 1 ∧
    ((processBulletSlot (playerRect s.player) s i).gameOver = true
      ↔ s.player.livesLeft - 1 ≤ 0) ∧
    (processBulletSlot (playerRect s.player) s i).player.px
      = ((WINDOW_WIDTH / 2 : ℤ) : ℚ) ∧
    (processBulletSlot (playerRect s.player) s i).player.py
      = ((WINDOW_HEIGHT - WINDOW_HEIGHT / 14 : ℤ) : ℚ) ∧
    (processBulletSlot (playerRect s.player) s i).player.px = 320 ∧
    (processBulletSlot (playerRect s.player) s i).player.py = 446 := by
  have hid := enemyFold_id_of_vy_one (bulletRect b) i (List.range MAX_ENEMIES) s b hb hvy
  simp only [processBulletSlot, hb]
  rw [hid]
  simp only [hb]
  rw [if_pos ⟨hint, by rw [hvy]; decide⟩]
  refine ⟨rfl, rfl, rfl, ?_, rfl, rfl, ?_, ?_⟩
  · rw [hgo]
    simp
  · show ((WINDOW_WIDTH / 2 : ℤ) : ℚ) = 320
    decide
  · show ((WINDOW_HEIGHT - WINDOW_HEIGHT / 14 : ℤ) : ℚ) = 446
    decide

/-- Witness for C6: with one life left, the overlapping enemy bullet drops
the lives to 0, raises the game-over flag, respawns the player at (320,446)
and spawns the ship-destruction particle at the bullet's position. -/
theorem player_hit_resolution_witness :
    (processBulletSlot (playerRect hitState.player) hitState 0).player.livesLeft = 0 ∧
    (processBulletSlot (playerRect hitState.player) hitState 0).gameOver = true ∧
    (processBulletSlot (playerRect hitState.player) hitState 0).player.px = 320 ∧
    (processBulletSlot (playerRect hitState.player) hitState 0).player.py = 446 ∧
    (processBulletSlot (playerRect hitState.player) hitState 0).particles
      = createParticle hitState.particles
        { px := 320, py := 446, lifetime := 1 / 2
        , particleType := ParticleTypes.SHIP_EXPLOSION } := by
  have h := player_hit_resolution hitState 0 { px := 320, py := 446, vy := 1 }
    rfl rfl (by decide) rfl
  refine ⟨?_, ?_, h.2.2.2.2.2.2.1, h.2.2.2.2.2.2.2, h.1⟩
  · rw [h.2.2.1]
    decide
  · exact h.2.2.2.1.mpr (by decide)

/-- Counterexample to C6 as stated: the post-hit player y is exactly 446
(the reset formula `WINDOW_HEIGHT − WINDOW_HEIGHT/14` is C integer
arithmetic, `480 − 34`), not the claimed real-division value
`480 − 480/14 ≈ 445.7`. -/
theorem player_hit_resolution_cex :
    (processBulletSlot (playerRect hitState.player) hitState 0).player.py = 446 ∧
    ((446 : ℚ) ≠ 480 - 480 / 14) := by
  refine ⟨?_, by norm_num⟩
  have hb : hitState.bullets.getD 0 none = some { px := 320, py := 446, vy := 1 } := rfl
  have hid := enemyFold_id_of_vy_one (bulletRect { px := 320, py := 446, vy := 1 }) 0
    (List.range MAX_ENEMIES) hitState { px := 320, py := 446, vy := 1 } hb rfl
  simp only [processBulletSlot, hb, hid]
  rw [if_pos ⟨by decide, by decide⟩]
  decide

/-! ## Enemy-shoot scan lemmas -/

theorem getD_replicate {α : Type} (n i : ℕ) (a : α) :
    (List.replicate n a).getD i a = a := by
  rcases lt_or_le i n with h | h
  · simp [List.getD_eq_getElem?_getD, List.getElem?_replicate, h]
  · rw [List.getD_eq_default]
    simp [h]

theorem shootFoldN_succ (delta : ℚ) (init : ShootState) (n : ℕ) :
    shootFoldN delta init (n + 1) = enemyShootStep delta (shootFoldN delta init n) n := by
  simp [shootFoldN, List.range_succ]

theorem enemyShootStep_getD_ne (delta : ℚ) (st : ShootState) (t k : ℕ) (hk : k ≠ 54 - t) :
    (enemyShootStep delta st t).enemies.getD k none = st.enemies.getD k none := by
  simp only [enemyShootStep]
  split
  · rfl
  · split_ifs with h1 h2
    · rfl
    · exact getD_set_ne _ _ _ _ _ (Ne.symm hk)
    · exact getD_set_ne _ _ _ _ _ (Ne.symm hk)

theorem enemyShootStep_isSome (delta : ℚ) (st : ShootState) (t k : ℕ) :
    ((enemyShootStep delta st t).enemies.getD k none).isSome
      = (st.enemies.getD k none).isSome := by
  by_cases hk : k = 54 - t
  · subst hk
    simp only [enemyShootStep]
    split
    · rfl
    · next e heq =>
      have hlt : 54 - t < st.enemies.length := by
        by_contra hcon
        rw [List.getD_eq_default _ _ (le_of_not_lt hcon)] at heq
        simp at heq
      split_ifs with h1 h2
      · rfl
      · rw [getD_set_self _ _ _ _ hlt, heq]
        rfl
      · rw [getD_set_self _ _ _ _ hlt, heq]
        rfl
  · rw [enemyShootStep_getD_ne delta st t k hk]

theorem enemyShootStep_found_length (delta : ℚ) (st : ShootState) (t : ℕ) :
    (enemyShootStep delta st t).found.length = st.found.length := by
  simp only [enemyShootStep]
  split
  · rfl
  · split_ifs with h1 h2
    · rfl
    · exact List.length_set st.found _ _
    · exact List.length_set st.found _ _

theorem shootFoldN_isSome (delta : ℚ) (init : ShootState) (n k : ℕ) :
    ((shootFoldN delta init n).enemies.getD k none).isSome
      = (init.enemies.getD k none).isSome := by
  induction n with
  | zero => rfl
  | succ m ih => rw [shootFoldN_succ, enemyShootStep_isSome, ih]

theorem shootFoldN_found_length (delta : ℚ) (init : ShootState) (n : ℕ) :
    (shootFoldN delta init n).found.length = init.found.length := by
  induction n with
  | zero => rfl
  | succ m ih => rw [shootFoldN_succ, enemyShootStep_found_length, ih]

theorem shootFoldN_found_iff (delta : ℚ) (E : List (Option Enemy)) (B : List (Option Bullet))
    (rng : List ℕ) (n : ℕ) (j : ℕ) (hj : j < 11) :
    ((shootFoldN delta ⟨E, B, List.replicate 11 false, rng⟩ n).found.getD j false = true
      ↔ ∃ t, t < n ∧ t % 11 = j ∧ (E.getD (54 - t) none).isSome) := by
  induction n with
  | zero =>
    show ((List.replicate 11 false).getD j false = true ↔ _)
    rw [getD_replicate]
    simp
  | succ m ih =>
    rw [shootFoldN_succ]
    have hlive : ∀ k, (((shootFoldN delta ⟨E, B, List.replicate 11 false, rng⟩ m).enemies.getD k none)).isSome
        = ((E.getD k none)).isSome :=
      fun k => shootFoldN_isSome delta _ m k
    have hlen : (shootFoldN delta ⟨E, B, List.replicate 11 false, rng⟩ m).found.length = 11 := by
      rw [shootFoldN_found_length]
      simp
    have hsplit : (∃ t, t < m + 1 ∧ t % 11 = j ∧ (E.getD (54 - t) none).isSome)
        ↔ ((∃ t, t < m ∧ t % 11 = j ∧ (E.getD (54 - t) none).isSome)
            ∨ (m % 11 = j ∧ (E.getD (54 - m) none).isSome)) := by
      constructor
      · rintro ⟨t, ht, h2, h3⟩
        rcases Nat.lt_succ_iff_lt_or_eq.mp ht with h | h
        · exact Or.inl ⟨t, h, h2, h3⟩
        · subst h
          exact Or.inr ⟨h2, h3⟩
      · rintro (⟨t, ht, h2, h3⟩ | ⟨h2, h3⟩)
        · exact ⟨t, by omega, h2, h3⟩
        · exact ⟨m, by omega, h2, h3⟩
    rw [hsplit]
    simp only [enemyShootStep]
    split
    · next heq =>
      rw [ih]
      have hdead : (E.getD (54 - m) none).isSome = false := by
        rw [← hlive, heq]
        rfl
      constructor
      · exact Or.inl
      · rintro (h | ⟨h2, h3⟩)
        · exact h
        · rw [hdead] at h3
          exact absurd h3 (by simp)
    · next e heq =>
      have hliveE : (E.getD (54 - m) none).isSome = true := by
        rw [← hlive, heq]
        rfl
      split_ifs with h1 h2
      · rw [ih]
        by_cases hj0 : m % 11 = j
        · have hA := ih.mp (hj0 ▸ h1)
          exact ⟨fun h => Or.inl h, fun _ => hA⟩
        · constructor
          · exact Or.inl
          · rintro (h | ⟨h2, h3⟩)
            · exact h
            · exact absurd h2 hj0
      · by_cases hj0 : m % 11 = j
        · rw [hj0, getD_set_self _ _ _ _ (by rw [hlen]; exact hj)]
          exact ⟨fun _ => Or.inr ⟨rfl, hliveE⟩, fun _ => rfl⟩
        · rw [getD_set_ne _ _ _ _ _ hj0, ih]
          constructor
          · exact Or.inl
          · rintro (h | ⟨h2, h3⟩)
            · exact h
            · exact absurd h2 hj0
      · by_cases hj0 : m % 11 = j
        · rw [hj0, getD_set_self _ _ _ _ (by rw [hlen]; exact hj)]
          exact ⟨fun _ => Or.inr ⟨rfl, hliveE⟩, fun _ => rfl⟩
        · rw [getD_set_ne _ _ _ _ _ hj0, ih]
          constructor
          · exact Or.inl
          · rintro (h | ⟨h2, h3⟩)
            · exact h
            · exact absurd h2 hj0

theorem shootFoldN_unchanged (delta : ℚ) (E : List (Option Enemy)) (B : List (Option Bullet))
    (rng : List ℕ) (k : ℕ) (hk : k < 55)
    (hhigher : ∃ kk, k < kk ∧ kk < 55 ∧ kk % 11 = k % 11 ∧ (E.getD kk none).isSome) :
    ∀ n, n ≤ 55 →
      (shootFoldN delta ⟨E, B, List.replicate 11 false, rng⟩ n).enemies.getD k none
        = E.getD k none := by
  intro n
  induction n with
  | zero => intro _; rfl
  | succ m ih =>
    intro hm
    rw [shootFoldN_succ]
    by_cases hki : k = 54 - m
    · obtain ⟨kk, hkk1, hkk2, hkk3, hkk4⟩ := hhigher
      have ht'm : 54 - kk < m := by omega
      have ht'j : (54 - kk) % 11 = m % 11 := by omega
      have hlive2 : (E.getD (54 - (54 - kk)) none).isSome := by
        have h54 : 54 - (54 - kk) = kk := by omega
        rw [h54]
        exact hkk4
      have hfound := (shootFoldN_found_iff delta E B rng m (m % 11)
        (Nat.mod_lt _ (by norm_num))).mpr ⟨54 - kk, ht'm, ht'j, hlive2⟩
      have hid : enemyShootStep delta (shootFoldN delta ⟨E, B, List.replicate 11 false, rng⟩ m) m
          = shootFoldN delta ⟨E, B, List.replicate 11 false, rng⟩ m := by
        simp only [enemyShootStep]
        split
        · rfl
        · rw [if_pos hfound]
      rw [hid]
      exact ih (by omega)
    · rw [enemyShootStep_getD_ne delta _ m k hki]
      exact ih (by omega)

/-- C9: the enemy-shoot scan (indices 54 down to 0, 5 rows of 11 scan
positions) processes per scan position only the first — highest-indexed —
live enemy: any live enemy with a higher-indexed live enemy at the same
position mod 11 is left entirely unchanged, and at most 11 slots of the
enemy pool change in one step. -/
theorem enemyShoot_front_row (delta : ℚ) (rng : List ℕ) (s : GameState) :
    (∀ k kk, k < kk → kk < 55 → kk % 11 = k % 11 → (s.enemies.getD kk none).isSome →
      (enemyShoot delta rng s).enemies.getD k none = s.enemies.getD k none) ∧
    ((Finset.range 55).filter (fun k =>
      (enemyShoot delta rng s).enemies.getD k none ≠ s.enemies.getD k none)).card ≤ 11 := by
  have henem : (enemyShoot delta rng s).enemies
      = (shootFoldN delta ⟨s.enemies, s.bullets, List.replicate 11 false, rng⟩
          MAX_ENEMIES).enemies := by
    simp only [enemyShoot]
  have hmain : ∀ k kk, k < kk → kk < 55 → kk % 11 = k % 11 →
      (s.enemies.getD kk none).isSome →
      (enemyShoot delta rng s).enemies.getD k none = s.enemies.getD k none := by
    intro k kk h1 h2 h3 h4
    rw [henem]
    exact shootFoldN_unchanged delta s.enemies s.bullets rng k (by omega)
      ⟨kk, h1, h2, h3, h4⟩ MAX_ENEMIES (by norm_num [MAX_ENEMIES])
  refine ⟨hmain, ?_⟩
  have hlive_of_changed : ∀ kx, kx ∈ (Finset.range 55).filter (fun k =>
      (enemyShoot delta rng s).enemies.getD k none ≠ s.enemies.getD k none) →
      (s.enemies.getD kx none).isSome := by
    intro kx hkx
    by_contra hns
    apply (Finset.mem_filter.mp hkx).2
    have hnone : s.enemies.getD kx none = none := by
      cases hcase : s.enemies.getD kx none with
      | none => rfl
      | some e =>
        rw [hcase] at hns
        simp at hns
    rw [hnone]
    have hfin : ((enemyShoot delta rng s).enemies.getD kx none).isSome = false := by
      rw [henem, shootFoldN_isSome, hnone]
      rfl
    cases hcase2 : (enemyShoot delta rng s).enemies.getD kx none with
    | none => rfl
    | some e =>
      rw [hcase2] at hfin
      simp at hfin
  have h11 : ((Finset.range 55).filter (fun k =>
      (enemyShoot delta rng s).enemies.getD k none ≠ s.enemies.getD k none)).card
      ≤ (Finset.range 11).card := by
    apply Finset.card_le_card_of_injOn (fun k => k % 11)
    · intro a ha
      simp only [Finset.mem_range]
      exact Nat.mod_lt _ (by norm_num)
    · intro k1 hk1 k2 hk2 hmod
      by_contra hne
      rcases lt_trichotomy k1 k2 with hlt | heq2 | hlt
      · apply (Finset.mem_filter.mp hk1).2
        have hk2r := Finset.mem_range.mp (Finset.mem_filter.mp hk2).1
        exact hmain k1 k2 hlt hk2r hmod.symm (hlive_of_changed k2 hk2)
      · exact hne heq2
      · apply (Finset.mem_filter.mp hk2).2
        have hk1r := Finset.mem_range.mp (Finset.mem_filter.mp hk1).1
        exact hmain k2 k1 hlt hk1r hmod (hlive_of_changed k1 hk1)
  rw [Finset.card_range] at h11
  exact h11

/-- Witness for C9: with enemies in slots 0 and 11 (same scan position),
slot 0 is untouched by the enemy-shoot step, and at most 11 slots change. -/
theorem enemyShoot_front_row_witness :
    (enemyShoot 0 [] colState).enemies.getD 0 none = colState.enemies.getD 0 none ∧
    ((Finset.range 55).filter (fun k =>
      (enemyShoot 0 [] colState).enemies.getD k none
        ≠ colState.enemies.getD k none)).card ≤ 11 :=
  ⟨(enemyShoot_front_row 0 [] colState).1 0 11 (by norm_num) (by norm_num)
      (by norm_num) (by rw [show colState.enemies.getD 11 none
        = some { px := 100, py := 140, killReward := 10, shootTimer := 1 } from rfl]; rfl),
    (enemyShoot_front_row 0 [] colState).2⟩

theorem getD_single_slot {α : Type} (n i : ℕ) (a : α) (j : ℕ) (b : α)
    (h : ((List.replicate n (none : Option α)).set i (some a)).getD j none = some b) :
    b = a := by
  by_cases hji : j = i
  · subst hji
    by_cases hlt : j < n
    · rw [getD_set_self _ _ _ _ (by simpa using hlt)] at h
      injection h with h1
      exact h1.symm
    · rw [List.getD_eq_default] at h
      · exact absurd h (by simp)
      · rw [List.length_set, List.length_replicate]
        exact le_of_not_lt hlt
  · rw [getD_set_ne _ _ _ _ _ (Ne.symm hji)] at h
    rcases lt_or_le j n with h2 | h2
    · rw [List.getD_eq_getElem?_getD] at h
      simp [List.getElem?_replicate, h2] at h
    · rw [List.getD_eq_default] at h
      · exact absurd h (by simp)
      · simpa using h2

theorem enemyHitStep_bullets_cases (bRect : Rect) (i j : ℕ) (s : GameState) :
    (enemyHitStep bRect i s j).bullets = s.bullets ∨
    (enemyHitStep bRect i s j).bullets = s.bullets.set i none := by
  simp only [enemyHitStep]
  split
  · exact Or.inl rfl
  · split
    · exact Or.inl rfl
    · split_ifs
      · exact Or.inr rfl
      · exact Or.inl rfl

theorem enemyFold_bullets_cases (bRect : Rect) (i : ℕ) (l : List ℕ) (s : GameState) :
    (l.foldl (enemyHitStep bRect i) s).bullets = s.bullets ∨
    (l.foldl (enemyHitStep bRect i) s).bullets = s.bullets.set i none := by
  induction l generalizing s with
  | nil => exact Or.inl rfl
  | cons a l ih =>
    simp only [List.foldl_cons]
    rcases enemyHitStep_bullets_cases bRect i a s with h1 | h1 <;>
      rcases ih (enemyHitStep bRect i s a) with h2 | h2
    · exact Or.inl (h2.trans h1)
    · rw [h1] at h2
      exact Or.inr h2
    · rw [h1] at h2
      exact Or.inr h2
    · rw [h1, List.set_set] at h2
      exact Or.inr h2

theorem processBulletSlot_bullets_cases (pRect : Rect) (s : GameState) (i : ℕ) :
    (processBulletSlot pRect s i).bullets = s.bullets ∨
    (processBulletSlot pRect s i).bullets = s.bullets.set i none := by
  simp only [processBulletSlot]
  split
  · exact Or.inl rfl
  · next b0 heq =>
    rcases enemyFold_bullets_cases (bulletRect b0) i (List.range MAX_ENEMIES) s with h1 | h1
    · split
      · exact Or.inl h1
      · split_ifs
        · right
          dsimp only
          rw [h1]
        · exact Or.inl h1
    · split
      · exact Or.inr h1
      · split_ifs
        · right
          dsimp only
          rw [h1, List.set_set]
        · exact Or.inr h1

theorem processBulletSlot_preserves_vy (pRect : Rect) (s : GameState) (i : ℕ) (d : ℤ)
    (h : ∀ j b, s.bullets.getD j none = some b → b.vy = d) :
    ∀ j b, (processBulletSlot pRect s i).bullets.getD j none = some b → b.vy = d := by
  intro j b hjb
  rcases processBulletSlot_bullets_cases pRect s i with hc | hc
  · rw [hc] at hjb
    exact h j b hjb
  · rw [hc] at hjb
    by_cases hji : j = i
    · subst hji
      by_cases hlt : j < s.bullets.length
      · rw [getD_set_self _ _ _ _ hlt] at hjb
        exact absurd hjb (by simp)
      · rw [List.getD_eq_default] at hjb
        · exact absurd hjb (by simp)
        · rw [List.length_set]
          exact le_of_not_lt hlt
    · rw [getD_set_ne _ _ _ _ _ (Ne.symm hji)] at hjb
      exact h j b hjb

theorem processBulletSlot_player_fields (pRect : Rect) (s : GameState) (i : ℕ)
    (h : ∀ b, s.bullets.getD i none = some b → b.vy = -1) :
    (processBulletSlot pRect s i).player.livesLeft = s.player.livesLeft ∧
    (processBulletSlot pRect s i).player.px = s.player.px ∧
    (processBulletSlot pRect s i).player.py = s.player.py ∧
    (processBulletSlot pRect s i).gameOver = s.gameOver := by
  simp only [processBulletSlot]
  split
  · exact ⟨rfl, rfl, rfl, rfl⟩
  · next b0 heq =>
    have hA := enemyFold_player_fields (bulletRect b0) i (List.range MAX_ENEMIES) s
    split
    · exact ⟨hA.1, hA.2.1, hA.2.2.1, hA.2.2.2⟩
    · next b2 heq2 =>
      rcases enemyFold_bullet_slot (bulletRect b0) i (List.range MAX_ENEMIES) s with hS | hS
      · rw [heq2] at hS
        rw [if_neg]
        · exact ⟨hA.1, hA.2.1, hA.2.2.1, hA.2.2.2⟩
        · rintro ⟨_, hne⟩
          exact hne (h b2 hS.symm)
      · rw [heq2] at hS
        exact absurd hS (by simp)

theorem processBulletSlot_enemies_score (pRect : Rect) (s : GameState) (i : ℕ)
    (h : ∀ b, s.bullets.getD i none = some b → b.vy = 1) :
    (processBulletSlot pRect s i).enemies = s.enemies ∧
    (processBulletSlot pRect s i).player.score = s.player.score := by
  simp only [processBulletSlot]
  split
  · exact ⟨rfl, rfl⟩
  · next b0 heq =>
    rw [enemyFold_id_of_vy_one (bulletRect b0) i (List.range MAX_ENEMIES) s b0 heq (h b0 heq)]
    split
    · exact ⟨rfl, rfl⟩
    · split_ifs
      · exact ⟨rfl, rfl⟩
      · exact ⟨rfl, rfl⟩

theorem foldPB_player_fields (pRect : Rect) (l : List ℕ) (s : GameState)
    (h : ∀ j b, s.bullets.getD j none = some b → b.vy = -1) :
    (l.foldl (processBulletSlot pRect) s).player.livesLeft = s.player.livesLeft ∧
    (l.foldl (processBulletSlot pRect) s).player.px = s.player.px ∧
    (l.foldl (processBulletSlot pRect) s).player.py = s.player.py ∧
    (l.foldl (processBulletSlot pRect) s).gameOver = s.gameOver := by
  induction l generalizing s with
  | nil => exact ⟨rfl, rfl, rfl, rfl⟩
  | cons a l ih =>
    simp only [List.foldl_cons]
    have h1 := processBulletSlot_player_fields pRect s a (fun b hb => h a b hb)
    have h2 := ih (processBulletSlot pRect s a)
      (processBulletSlot_preserves_vy pRect s a (-1) h)
    exact ⟨h2.1.trans h1.1, h2.2.1.trans h1.2.1, h2.2.2.1.trans h1.2.2.1,
      h2.2.2.2.trans h1.2.2.2⟩

theorem foldPB_enemies_score (pRect : Rect) (l : List ℕ) (s : GameState)
    (h : ∀ j b, s.bullets.getD j none = some b → b.vy = 1) :
    (l.foldl (processBulletSlot pRect) s).enemies = s.enemies ∧
    (l.foldl (processBulletSlot pRect) s).player.score = s.player.score := by
  induction l generalizing s with
  | nil => exact ⟨rfl, rfl⟩
  | cons a l ih =>
    simp only [List.foldl_cons]
    have h1 := processBulletSlot_enemies_score pRect s a (fun b hb => h a b hb)
    have h2 := ih (processBulletSlot pRect s a)
      (processBulletSlot_preserves_vy pRect s a 1 h)
    exact ⟨h2.1.trans h1.1, h2.2.trans h1.2⟩

/-- C1: in the frame's collision resolution a bullet with direction −1 never
registers a hit against the player and a bullet with direction +1 never
registers a hit against any enemy — per bullet slot, a −1 bullet leaves
lives, player position and the game-over flag untouched and a +1 bullet
leaves the enemy pool and score untouched, and over the whole
`checkBulletCollisions` pass an all-(−1) pool cannot damage the player while
an all-(+1) pool cannot damage enemies or score. -/
theorem bullet_directionality (pRect : Rect) (s : GameState) (i : ℕ) :
    (∀ b, s.bullets.getD i none = some b → b.vy = -1 →
      (processBulletSlot pRect s i).player.livesLeft = s.player.livesLeft ∧
      (processBulletSlot pRect s i).player.px = s.player.px ∧
      (processBulletSlot pRect s i).player.py = s.player.py ∧
      (processBulletSlot pRect s i).gameOver = s.gameOver) ∧
    (∀ b, s.bullets.getD i none = some b → b.vy = 1 →
      (processBulletSlot pRect s i).enemies = s.enemies ∧
      (processBulletSlot pRect s i).player.score = s.player.score) ∧
    ((∀ j b, s.bullets.getD j none = some b → b.vy = -1) →
      (checkBulletCollisions s).player.livesLeft = s.player.livesLeft ∧
      (checkBulletCollisions s).player.px = s.player.px ∧
      (checkBulletCollisions s).player.py = s.player.py ∧
      (checkBulletCollisions s).gameOver = s.gameOver) ∧
    ((∀ j b, s.bullets.getD j none = some b → b.vy = 1) →
      (checkBulletCollisions s).enemies = s.enemies ∧
      (checkBulletCollisions s).player.score = s.player.score) := by
  have hcbc : checkBulletCollisions s
      = (List.range MAX_PROJECTILES).foldl (processBulletSlot (playerRect s.player)) s := by
    simp only [checkBulletCollisions]
  refine ⟨?_, ?_, ?_, ?_⟩
  · intro b hb hvy
    have hall : ∀ b2, s.bullets.getD i none = some b2 → b2.vy = -1 := by
      intro b2 hb2
      rw [hb] at hb2
      exact (Option.some_inj.mp hb2) ▸ hvy
    exact processBulletSlot_player_fields pRect s i hall
  · intro b hb hvy
    have hall : ∀ b2, s.bullets.getD i none = some b2 → b2.vy = 1 := by
      intro b2 hb2
      rw [hb] at hb2
      exact (Option.some_inj.mp hb2) ▸ hvy
    exact processBulletSlot_enemies_score pRect s i hall
  · intro h
    rw [hcbc]
    exact foldPB_player_fields (playerRect s.player) (List.range MAX_PROJECTILES) s h
  · intro h
    rw [hcbc]
    exact foldPB_enemies_score (playerRect s.player) (List.range MAX_PROJECTILES) s h

/-- Witness for C1: the slot-0 player bullet leaves lives/flag alone, the
slot-1 enemy bullet leaves the enemy pool and score alone, and a whole frame
of the all-(−1) pool leaves the lives at 3 while a frame of the all-(+1)
pool leaves the enemy pool alone. -/
theorem bullet_directionality_witness :
    (processBulletSlot (playerRect createPlayer) shotState 0).player.livesLeft = 3 ∧
    (processBulletSlot (playerRect createPlayer) shotState 0).gameOver = false ∧
    (processBulletSlot (playerRect createPlayer) shotState 1).enemies = shotState.enemies ∧
    (processBulletSlot (playerRect createPlayer) shotState 1).player.score = 0 ∧
    (checkBulletCollisions upState).player.livesLeft = 3 ∧
    (checkBulletCollisions downState).enemies = downState.enemies := by
  have h0 := (bullet_directionality (playerRect createPlayer) shotState 0).1
    { px := 320, py := 100, vy := -1 } rfl rfl
  have h1 := (bullet_directionality (playerRect createPlayer) shotState 1).2.1
    { px := 320, py := 446, vy := 1 } rfl rfl
  have h2 := (bullet_directionality (playerRect createPlayer) upState 0).2.2.1
    (fun j b hjb => by rw [getD_single_slot 20 0 _ j b hjb])
  have h3 := (bullet_directionality (playerRect createPlayer) downState 0).2.2.2
    (fun j b hjb => by rw [getD_single_slot 20 0 _ j b hjb])
  exact ⟨h0.1, h0.2.2.2, h1.1, h1.2, h2.1, h3.1⟩
